import Mathlib

/-!
Shallow embedding of the OCR system backend (`backend/index.js`): the record
schema, the multer upload validation, the upload/preprocess/OCR/persist
pipeline, and the record store routes (list/search, get by id, delete by id).
External collaborators (MongoDB queries, mongoose validation and ObjectId
casting, multer, sharp, Tesseract, node `path`) are modelled from their
documented behaviour at the exact points the backend calls them.
-/

/-- A persisted OCR record: the mongoose `recordSchema` fields plus the
generated document id. `createdAt` is a millisecond timestamp. -/
structure Record where
  id : String
  imageUrl : String
  extractedText : String
  language : String
  createdAt : Nat
deriving DecidableEq, Repr

/-! Modelling the search query (`GET /api/records`)

The handler passes the raw `search` string to MongoDB as
`extractedText: regex search, options i` — the search string is
interpreted as a regular-expression *pattern*, case-insensitively, not as a
literal substring. We model the pattern semantics only on the fragment of
patterns built from literal characters and the `.` metacharacter: on that
fragment `$regex` is exactly "match at some position, `.` matches any
character, other characters match up to case", every pattern is valid, and
no query error can arise. Patterns using any other PCRE metacharacter
(quantifiers, alternation, groups, classes, anchors, escapes) — including
invalid ones such as a lone opening group, on which the real query throws
and the route answers 500 — are OUTSIDE this model, and every theorem below
that touches the search keeps its pattern inside the fragment: the
counterexample's pattern uses only literals and the dot, and the amended
theorem's hypothesis excludes every metacharacter, the dot included. -/

/-- The PCRE metacharacters of the `$regex` pattern language. A search string
avoiding all of them is a valid pattern consisting of literals only, which
is the part of the fragment on which matching is literal substring search. -/
def regexMetachars : List Char :=
  ['.', '*', '+', '?', '|', '(', ')', '[', ']', '\x7b', '\x7d', '^', '$', '\\']

/-- One pattern character against one text character, case-insensitively, for
patterns inside the literals-and-dot fragment: `.` matches anything, a
literal character matches up to ASCII case. -/
def reCharMatch (p c : Char) : Bool :=
  (p == '.') || (p.toLower == c.toLower)

/-- The pattern (inside the literals-and-dot fragment) matches a prefix of
the text. -/
def reMatchHere : List Char → List Char → Bool
  | [], _ => true
  | _ :: _, [] => false
  | p :: ps, c :: cs => reCharMatch p c && reMatchHere ps cs

/-- Unanchored regex search, as MongoDB `$regex` performs it on patterns
inside the literals-and-dot fragment: the pattern matches at some position
of the text. -/
def reFind (pat : List Char) : List Char → Bool
  | [] => reMatchHere pat []
  | c :: cs => reMatchHere pat (c :: cs) || reFind pat cs

/-- The spec's notion, for comparison: `sub` starts the text, compared
case-insensitively and literally (every character, `.` included, is itself). -/
def startsWithCI : List Char → List Char → Bool
  | _, [] => true
  | [], _ :: _ => false
  | c :: cs, p :: ps => (p.toLower == c.toLower) && startsWithCI cs ps

/-- The spec's notion, for comparison: `sub` occurs somewhere in the text as a
literal substring, case-insensitively. -/
def containsSubCI (sub : List Char) : List Char → Bool
  | [] => sub.isEmpty
  | c :: cs => startsWithCI (c :: cs) sub || containsSubCI sub cs

/-- Case-insensitive literal substring containment on strings (the spec's
reading of the search parameter). -/
def containsCI (text sub : String) : Bool :=
  containsSubCI sub.toList text.toList

/-- The `if (search)` guard plus the Mongo query: an absent search parameter
or the empty string (both falsy in JS) select everything; a non-empty search
string filters `extractedText` with the case-insensitive `$regex`. Defined,
like the matcher it uses, only for search strings inside the
literals-and-dot fragment; a search string outside it (in particular an
invalid pattern) makes the real query throw and the route answer 500, which
this model does not cover and no theorem relies on. -/
def queryFilter (search : Option String) (r : Record) : Bool :=
  match search with
  | none => true
  | some s => if s = "" then true else reFind s.toList r.extractedText.toList

/-- The sort order requested by `.sort` on `createdAt` with direction `-1`:
descending `createdAt`. -/
def createdAtDesc (a b : Record) : Prop :=
  b.createdAt ≤ a.createdAt

instance : DecidableRel createdAtDesc :=
  fun a b => Nat.decLe b.createdAt a.createdAt

instance : IsTotal Record createdAtDesc :=
  ⟨fun a b => Nat.le_total b.createdAt a.createdAt⟩

instance : IsTrans Record createdAtDesc :=
  ⟨fun _ _ _ h1 h2 => Nat.le_trans h2 h1⟩

/-- Models `Record.find(query).sort` on `createdAt` descending: the matching records,
sorted by `createdAt` newest first (a stable structural sort models the
cursor sort). -/
def listRecords (store : List Record) (search : Option String) : List Record :=
  List.insertionSort createdAtDesc (store.filter (queryFilter search))

/-- The JSON body of a successful `GET /api/records` response. -/
structure RecordsResponse where
  success : Bool
  records : List Record
  count : Nat
deriving DecidableEq, Repr

/-- Handler for `GET /api/records`: find, sort, and answer with the records and their
count. -/
def recordsResponse (store : List Record) (search : Option String) : RecordsResponse :=
  let records := listRecords store search
  ⟨true, records, records.length⟩

/-! Modelling upload validation (multer configuration)

`fileFilter` tests the lowercased extension of the original filename and the
declared mimetype against the JS regex `jpeg|jpg|png|gif|bmp|tiff|webp`.
That regex is an unanchored alternation: `test` answers true exactly when
one of the alternatives occurs *somewhere inside* the tested string, not
when the string equals an alternative. -/

/-- Case-sensitive: `pat` starts the text. -/
def startsWithCS : List Char → List Char → Bool
  | _, [] => true
  | [], _ :: _ => false
  | c :: cs, p :: ps => (p == c) && startsWithCS cs ps

/-- Case-sensitive: `pat` occurs somewhere in the text as a substring. -/
def occursIn (pat : List Char) : List Char → Bool
  | [] => pat.isEmpty
  | c :: cs => startsWithCS (c :: cs) pat || occursIn pat cs

/-- The alternatives of the allow-list regex. -/
def allowedTypes : List String := ["jpeg", "jpg", "png", "gif", "bmp", "tiff", "webp"]

/-- Models `RegExp.test` for the unanchored alternation: some alternative occurs as a
substring of the tested string. -/
def allowedTypesTest (s : String) : Bool :=
  allowedTypes.any (fun t => occursIn t.toList s.toList)

/-- node `path.extname` for a plain filename: the suffix starting at the last
dot of the tail of the name (a lone leading dot yields no extension). -/
def extnameAux : List Char → Option (List Char)
  | [] => none
  | c :: cs =>
    match extnameAux cs with
    | some e => some e
    | none => if c = '.' then some (c :: cs) else none

/-- node `path.extname` on the original filename. -/
def extname (name : String) : String :=
  match name.toList with
  | [] => ""
  | _ :: cs =>
    match extnameAux cs with
    | some e => String.mk e
    | none => ""

/-- JS `toLowerCase` (ASCII range, which covers the tested inputs). -/
def lowerStr (s : String) : String :=
  String.mk (s.toList.map Char.toLower)

/-- The multer `fileFilter`: accept exactly when both the lowercased extension
and the mimetype pass the allow-list regex test. On rejection it raises the
plain JS error with message "Only image files are allowed!". -/
def fileFilter (originalname mimetype : String) : Bool :=
  allowedTypesTest (lowerStr (extname originalname)) && allowedTypesTest mimetype

/-- The multer `limits.fileSize` value: 10 * 1024 * 1024 bytes. -/
def fileSizeLimit : Nat := 10 * 1024 * 1024

/-! Modelling the upload pipeline (`POST /api/upload`)

The request-level environment carries the outcomes of the two external calls
(sharp preprocessing, Tesseract recognition) and the server-generated values
(`Date.now`, the random filename suffix, the new document id). The system
state is the uploads directory, as the list of file paths it holds, plus the
Mongo record collection in insertion order. -/

/-- Outcome of the sharp preprocessing chain (grayscale, threshold, normalize,
write to the temp file): either the temp file is written, or the awaited
promise rejects. -/
inductive PreprocessOutcome
  | ok
  | err (msg : String)
deriving DecidableEq, Repr

/-- Outcome of `Tesseract.recognize`: recognized text, or a rejection. -/
inductive OcrOutcome
  | ok (text : String)
  | err (msg : String)
deriving DecidableEq, Repr

/-- Per-request environment: external-call outcomes and generated values. -/
structure Env where
  pre : PreprocessOutcome
  ocr : OcrOutcome
  now : Nat
  rand : Nat
  newId : String
deriving DecidableEq, Repr

/-- Server-side mutable state: the uploads directory (list of paths, newest
first) and the record collection (insertion order). -/
structure SysState where
  files : List String
  store : List Record
deriving DecidableEq, Repr

/-- An incoming multipart upload request. `bodyLanguage = none` models an
absent language field. -/
structure UploadRequest where
  originalname : String
  mimetype : String
  size : Nat
  bodyLanguage : Option String
deriving DecidableEq, Repr

/-- The multer disk-storage filename: fieldname, timestamp, random suffix and
the original extension. -/
def generatedFilename (env : Env) (originalname : String) : String :=
  "image-" ++ toString env.now ++ "-" ++ toString env.rand ++ extname originalname

/-- Where multer stored the raw upload (`req.file.path`). -/
def rawPathOf (env : Env) (originalname : String) : String :=
  "uploads/" ++ generatedFilename env originalname

/-- The handler's `processedPath` temp file for the preprocessed image. -/
def processedPathOf (env : Env) : String :=
  "uploads/processed-" ++ toString env.now ++ ".png"

/-- The handler's `imageUrl` for the stored record. -/
def imageUrlOf (env : Env) (originalname : String) : String :=
  "/uploads/" ++ generatedFilename env originalname

/-- JS `String.prototype.trim`: strip leading and trailing whitespace. -/
def jsTrim (s : String) : String :=
  String.mk (((s.toList.dropWhile Char.isWhitespace).reverse.dropWhile Char.isWhitespace).reverse)

/-- JS `req.body.language || eng-literal`: the supplied language when it is a
non-empty string, the default code otherwise (`undefined` and `""` are both
falsy). -/
def languageOr (bodyLanguage : Option String) : String :=
  match bodyLanguage with
  | none => "eng"
  | some s => if s = "" then "eng" else s

/-- Models `newRecord.save()` under the mongoose schema: the `required` String paths
(`imageUrl`, `extractedText`) reject a missing value *and the empty string*
(mongoose `checkRequired` for strings demands positive length); on success
the document is appended to the collection. -/
def saveRecord (r : Record) (store : List Record) : Except String (List Record) :=
  if r.imageUrl = "" then Except.error "Record validation failed: imageUrl"
  else if r.extractedText = "" then Except.error "Record validation failed: extractedText"
  else Except.ok (store ++ [r])

/-- An error reaching the express error middleware: the size-limit
`MulterError`, or a plain `Error` (the `fileFilter` rejection is one). -/
inductive UploadError
  | limitFileSize
  | plainError (msg : String)
deriving DecidableEq, Repr

/-- The error-handling middleware: `400` only for the `LIMIT_FILE_SIZE`
multer error, the generic `500` for every other error. -/
def errorMiddleware : UploadError → Nat × String
  | UploadError.limitFileSize => (400, "File too large. Maximum size is 10MB.")
  | UploadError.plainError _ => (500, "Something went wrong!")

/-- The upload route's response: HTTP status and, on `201`, the saved record
echoed in the JSON body. -/
structure UploadResponse where
  status : Nat
  record : Option Record
deriving DecidableEq, Repr

/-- Handler for `POST /api/upload`, end to end. multer runs first: `fileFilter` rejects the
file before anything is written (its plain error reaches the middleware, so
the answer is the generic `500`); for an accepted file the size limit aborts
the write, multer removes the partial file and the `LIMIT_FILE_SIZE` error
answers `400`. An accepted upload is stored on disk, then the handler runs:
preprocess to the temp file, recognize, trim, save, answer `201` and unlink
the temp file. A thrown error lands in the catch block, which unlinks the
*raw* upload when it exists (and only the raw upload) and answers `500`.
(A request with no file field at all answers `400` before any of these
steps; the claims all concern requests that do carry a file.) -/
def postUpload (env : Env) (req : UploadRequest) (st : SysState) :
    UploadResponse × SysState :=
  if fileFilter req.originalname req.mimetype then
    if req.size ≤ fileSizeLimit then
      let rawPath := rawPathOf env req.originalname
      let files1 := rawPath :: st.files
      let language := languageOr req.bodyLanguage
      let processedPath := processedPathOf env
      match env.pre with
      | PreprocessOutcome.err _ =>
        -- catch: unlink the raw upload, answer 500
        (⟨500, none⟩, ⟨files1.erase rawPath, st.store⟩)
      | PreprocessOutcome.ok =>
        let files2 := processedPath :: files1
        match env.ocr with
        | OcrOutcome.err _ =>
          -- catch: unlink the raw upload; the temp file is NOT removed
          (⟨500, none⟩, ⟨files2.erase rawPath, st.store⟩)
        | OcrOutcome.ok text =>
          let newRecord : Record :=
            ⟨env.newId, imageUrlOf env req.originalname, jsTrim text, language, env.now⟩
          match saveRecord newRecord st.store with
          | Except.error _ =>
            -- catch: unlink the raw upload; the temp file is NOT removed
            (⟨500, none⟩, ⟨files2.erase rawPath, st.store⟩)
          | Except.ok store2 =>
            -- 201, then unlink the temp file (the raw upload backs imageUrl)
            (⟨201, some newRecord⟩, ⟨files2.erase processedPath, store2⟩)
    else
      (⟨(errorMiddleware UploadError.limitFileSize).1, none⟩, st)
  else
    (⟨(errorMiddleware (UploadError.plainError "Only image files are allowed!")).1, none⟩, st)

/-! Modelling the by-id routes -/

/-- Hex digit test for ObjectId casting. -/
def isHexDigit (c : Char) : Bool :=
  c.isDigit || ('a' ≤ c && c ≤ 'f') || ('A' ≤ c && c ≤ 'F')

/-- mongoose casting of a route parameter to an ObjectId: a 24-character hex
string casts; anything else throws a `CastError`. (mongoose also casts a
12-character raw string; the claims only need that short garbage ids fail
to cast, which holds either way.) -/
def validObjectId (s : String) : Bool :=
  (s.length == 24) && s.toList.all isHexDigit

/-- Models `Record.findById`: throws `CastError` on a malformed id, otherwise looks
the id up in the collection. -/
def findById (store : List Record) (id : String) : Except String (Option Record) :=
  if validObjectId id then Except.ok (store.find? (fun r => r.id == id))
  else Except.error "CastError"

/-- The by-id routes' response: HTTP status and, on `200`, the record. -/
structure IdResponse where
  status : Nat
  record : Option Record
deriving DecidableEq, Repr

/-- Handler for `GET /api/records/:id`: `200` with the record, `404` when absent, and the
catch block turns a thrown `CastError` into a `500`. -/
def getById (store : List Record) (id : String) : IdResponse :=
  match findById store id with
  | Except.error _ => ⟨500, none⟩
  | Except.ok none => ⟨404, none⟩
  | Except.ok (some r) => ⟨200, some r⟩

/-- Handler for `DELETE /api/records/:id`: find (a thrown `CastError` lands in the catch
block as a `500`), `404` when absent; otherwise best-effort unlink of the
backing image file, `findByIdAndDelete`, and `200`. -/
def deleteById (st : SysState) (id : String) : Nat × SysState :=
  match findById st.store id with
  | Except.error _ => (500, st)
  | Except.ok none => (404, st)
  | Except.ok (some r) =>
    let files2 := st.files.erase r.imageUrl
    let store2 := st.store.filter (fun q => !(q.id == id))
    (200, ⟨files2, store2⟩)

/-! Concrete inputs used to instantiate the theorems below -/

/-- An empty server state: no files, no records. -/
def stEmpty : SysState := ⟨[], []⟩

/-- An environment in which preprocessing succeeds and recognition fails. -/
def envOcrFail : Env :=
  ⟨PreprocessOutcome.ok, OcrOutcome.err "ocr failed", 5, 9, "cccccccccccccccccccccccc"⟩

/-- An environment in which recognition yields text with surrounding blanks. -/
def envOkText : Env :=
  ⟨PreprocessOutcome.ok, OcrOutcome.ok " Hello ", 7, 9, "ffffffffffffffffffffffff"⟩

/-- An environment in which recognition yields whitespace-only text. -/
def envWsText : Env :=
  ⟨PreprocessOutcome.ok, OcrOutcome.ok "   ", 6, 9, "gggggggggggggggggggggggg"⟩

/-- A well-formed small PNG upload with no language field. -/
def reqPng : UploadRequest := ⟨"scan.png", "image/png", 1000, none⟩

/-- A well-formed small PNG upload with an explicit language field. -/
def reqPngFra : UploadRequest := ⟨"scan.png", "image/png", 1000, some "fra"⟩

/-- An executable upload, disallowed by type. -/
def reqExe : UploadRequest := ⟨"virus.exe", "application/octet-stream", 100, none⟩

/-- An oversized (15 MB) upload with an allowed image type. -/
def req15Png : UploadRequest := ⟨"big.png", "image/png", 15728640, none⟩

/-- An oversized (15 MB) upload with a disallowed type. -/
def req15Exe : UploadRequest := ⟨"big.exe", "application/x-msdownload", 15728640, none⟩

/-- A stored record whose extracted text is the three letters xyz. -/
def rXyz : Record := ⟨"aaaaaaaaaaaaaaaaaaaaaaaa", "/uploads/x.png", "xyz", "eng", 5⟩

/-- Two stored records sharing one `createdAt` millisecond. -/
def rTied1 : Record := ⟨"dddddddddddddddddddddddd", "/uploads/a.png", "alpha", "eng", 7⟩

/-- Second record of the tied pair. -/
def rTied2 : Record := ⟨"eeeeeeeeeeeeeeeeeeeeeeee", "/uploads/b.png", "beta", "eng", 7⟩

/-- A well-formed ObjectId, the id of `rIdA`. -/
def idA : String := "aaaaaaaaaaaaaaaaaaaaaaaa"

/-- A stored record with id `idA`. -/
def rIdA : Record := ⟨idA, "/uploads/a.png", "alpha", "eng", 3⟩

/-- A server state holding `rIdA` and its backing file. -/
def stIdA : SysState := ⟨["/uploads/a.png"], [rIdA]⟩

/-! Helper lemmas -/

/-- The public image URL of an upload is never the empty string. -/
theorem imageUrl_ne_empty (env : Env) (name : String) : imageUrlOf env name ≠ "" := by
  intro h
  have h2 := congrArg String.length h
  have h3 : ("/uploads/" : String).length = 9 := rfl
  simp [imageUrlOf, String.length_append, h3] at h2

/-- The raw upload path and the preprocessed temp path differ (the one starts
with an `image-` segment, the other with `processed-`). -/
theorem raw_ne_processed (env : Env) (name : String) :
    rawPathOf env name ≠ processedPathOf env := by
  intro h
  have h2 := congrArg String.data h
  have e1 : ("uploads/" : String).data = ['u','p','l','o','a','d','s','/'] := rfl
  have e2 : ("image-" : String).data = ['i','m','a','g','e','-'] := rfl
  have e3 : ("uploads/processed-" : String).data =
      ['u','p','l','o','a','d','s','/','p','r','o','c','e','s','s','e','d','-'] := rfl
  simp [rawPathOf, processedPathOf, generatedFilename, String.data_append,
    e1, e2, e3, List.append_assoc, List.cons_append] at h2

/-- On a pattern without the dot metacharacter, anchored regex matching is
literal case-insensitive prefix comparison. -/
theorem reMatchHere_eq_startsWithCI : ∀ (pat s : List Char),
    pat.all (fun c => c != '.') = true → reMatchHere pat s = startsWithCI s pat
  | [], s, _ => by cases s <;> simp [reMatchHere, startsWithCI]
  | p :: ps, [], _ => by simp [reMatchHere, startsWithCI]
  | p :: ps, c :: cs, h => by
    simp only [List.all_cons, Bool.and_eq_true] at h
    have hp : (p == '.') = false := by
      have := h.1
      simp only [bne_iff_ne, ne_eq] at this
      exact beq_eq_false_iff_ne.mpr this
    simp [reMatchHere, reCharMatch, startsWithCI, hp,
      reMatchHere_eq_startsWithCI ps cs h.2]

/-- On a pattern without the dot metacharacter, unanchored regex search is
literal case-insensitive substring containment. -/
theorem reFind_eq_containsSubCI : ∀ (pat s : List Char),
    pat.all (fun c => c != '.') = true → reFind pat s = containsSubCI pat s
  | pat, [], _ => by
    cases pat with
    | nil => simp [reFind, reMatchHere, containsSubCI]
    | cons p ps => simp [reFind, reMatchHere, containsSubCI]
  | pat, c :: cs, h => by
    simp [reFind, containsSubCI, reMatchHere_eq_startsWithCI pat (c :: cs) h,
      reFind_eq_containsSubCI pat cs h]

/-- Every text contains the empty substring. -/
theorem containsSubCI_nil : ∀ t : List Char, containsSubCI [] t = true
  | [] => rfl
  | c :: cs => by simp [containsSubCI, startsWithCI, containsSubCI_nil cs]

/-- For a dot-free search string, the Mongo query filter coincides with
case-insensitive literal substring containment. -/
theorem queryFilter_eq_containsCI (s : String) (h : s.toList.all (fun c => c != '.') = true)
    (r : Record) : queryFilter (some s) r = containsCI r.extractedText s := by
  by_cases hs : s = ""
  · subst hs
    have he : ("" : String).toList = [] := rfl
    simp [queryFilter, containsCI, he, containsSubCI_nil]
  · simp only [queryFilter, hs, if_false, containsCI]
    exact reFind_eq_containsSubCI _ _ h

/-- A search string free of every regex metacharacter is in particular free
of the dot. -/
theorem metachar_free_dot_free (s : String)
    (h : s.toList.all (fun c => !(regexMetachars.contains c)) = true) :
    s.toList.all (fun c => c != '.') = true := by
  rw [List.all_eq_true] at h ⊢
  intro c hc
  have h2 := h c hc
  rw [bne_iff_ne]
  intro hdot
  subst hdot
  exact absurd h2 (by decide)

/-- After `findByIdAndDelete`, no record with the deleted id can be found. -/
theorem find?_filter_ne (store : List Record) (id : String) :
    (store.filter (fun q => !(q.id == id))).find? (fun r => r.id == id) = none := by
  induction store with
  | nil => rfl
  | cons a l ih =>
    by_cases h : a.id = id
    · simp [List.filter_cons, h, ih]
    · simp [List.filter_cons, h, List.find?_cons, ih]

/-! Claim C1: recognition failure cleanup -/

/-- C1 counterexample: with preprocessing succeeded and recognition failing,
the request answers 500 and no record is stored and the raw upload is gone,
but the temporary preprocessed file is still in the uploads directory — the
claim that both files are removed is false on this input. -/
theorem C1_counterexample :
    (postUpload envOcrFail reqPng stEmpty).1.status = 500 ∧
    (postUpload envOcrFail reqPng stEmpty).2.store = [] ∧
    processedPathOf envOcrFail ∈ (postUpload envOcrFail reqPng stEmpty).2.files ∧
    (postUpload envOcrFail reqPng stEmpty).2.files = ["uploads/processed-5.png"] := by
  decide

/-- C1 (amended): when the recognition step fails after preprocessing
succeeded, the upload answers a 500 error, no record is inserted, and the
raw uploaded file is removed — but the temporary preprocessed file is NOT
removed: it remains in the uploads directory (the catch block only unlinks
`req.file.path`). -/
theorem C1_ocr_failure_cleanup (env : Env) (req : UploadRequest) (st : SysState) (m : String)
    (hf : fileFilter req.originalname req.mimetype = true)
    (hs : req.size ≤ fileSizeLimit)
    (hp : env.pre = PreprocessOutcome.ok)
    (ho : env.ocr = OcrOutcome.err m)
    (hfresh : rawPathOf env req.originalname ∉ st.files) :
    (postUpload env req st).1.status = 500 ∧
    (postUpload env req st).1.record = none ∧
    (postUpload env req st).2.store = st.store ∧
    rawPathOf env req.originalname ∉ (postUpload env req st).2.files ∧
    processedPathOf env ∈ (postUpload env req st).2.files := by
  have hne := raw_ne_processed env req.originalname
  have hbe : (processedPathOf env == rawPathOf env req.originalname) = false :=
    beq_eq_false_iff_ne.mpr (Ne.symm hne)
  simp [postUpload, hf, hs, hp, ho, List.erase_cons, hbe, hne, hfresh, Ne.symm hne]

/-- C1 witness. -/
theorem C1_ocr_failure_cleanup_witness :
    (postUpload envOcrFail reqPng stEmpty).1.status = 500 ∧
    (postUpload envOcrFail reqPng stEmpty).1.record = none ∧
    (postUpload envOcrFail reqPng stEmpty).2.store = stEmpty.store ∧
    rawPathOf envOcrFail reqPng.originalname ∉ (postUpload envOcrFail reqPng stEmpty).2.files ∧
    processedPathOf envOcrFail ∈ (postUpload envOcrFail reqPng stEmpty).2.files :=
  C1_ocr_failure_cleanup envOcrFail reqPng stEmpty "ocr failed"
    (by decide) (by decide) rfl rfl (by decide)

/-! Claim C2: search semantics -/

/-- C2 counterexample: searching for the three characters x dot z returns the
record whose text is xyz, although xyz does not contain that search string
as a literal substring — the search string is interpreted as a regex
pattern, so `list(s)` is not the literal-substring subset of `list()`. -/
theorem C2_counterexample :
    listRecords [rXyz] (some "x.z") ≠
      (listRecords [rXyz] none).filter (fun r => containsCI r.extractedText "x.z") ∧
    rXyz ∈ listRecords [rXyz] (some "x.z") ∧
    containsCI rXyz.extractedText "x.z" = false := by
  decide

/-- C2 (amended): the search string is handed to the store as a
case-insensitive regular-expression pattern, so regex metacharacters are
interpreted rather than literal (and a search string that is an invalid
pattern makes the query itself fail); for a search string free of every
regex metacharacter the result is exactly the records of `list()` whose
`extractedText` contains it as a literal substring, case-insensitively, and
searching the empty string returns the same list as no search at all. -/
theorem C2_search_literal_for_metachar_free (store : List Record) (s : String)
    (hm : s.toList.all (fun c => !(regexMetachars.contains c)) = true) :
    (listRecords store (some s)).Perm
      ((listRecords store none).filter (fun r => containsCI r.extractedText s)) ∧
    listRecords store (some "") = listRecords store none := by
  have h := metachar_free_dot_free s hm
  constructor
  · have hfe : store.filter (queryFilter (some s))
        = store.filter (fun r => containsCI r.extractedText s) :=
      List.filter_congr (fun a _ => queryFilter_eq_containsCI s h a)
    have hid : store.filter (queryFilter none) = store :=
      List.filter_eq_self.mpr (fun a _ => rfl)
    have p1 : (listRecords store (some s)).Perm
        (store.filter (fun r => containsCI r.extractedText s)) := by
      unfold listRecords
      rw [hfe]
      exact List.perm_insertionSort _ _
    have p2 : ((listRecords store none).filter (fun r => containsCI r.extractedText s)).Perm
        (store.filter (fun r => containsCI r.extractedText s)) := by
      unfold listRecords
      rw [hid]
      exact (List.perm_insertionSort _ _).filter _
    exact p1.trans p2.symm
  · unfold listRecords
    have he : store.filter (queryFilter (some "")) = store.filter (queryFilter none) :=
      List.filter_congr (fun a _ => rfl)
    rw [he]

/-- C2 witness. -/
theorem C2_search_literal_for_metachar_free_witness :
    (listRecords [rXyz] (some "xy")).Perm
      ((listRecords [rXyz] none).filter (fun r => containsCI r.extractedText "xy")) ∧
    listRecords [rXyz] (some "") = listRecords [rXyz] none :=
  C2_search_literal_for_metachar_free [rXyz] "xy" (by decide)

/-! Claim C3: upload type validation -/

/-- C3 counterexample: a file named evil.notpng with declared content-type
xpng passes validation although neither its extension nor its content-type
is a member of the allow-list (the regex test checks containment of an
alternative, not exact membership); and a rejected .exe upload answers 500,
not the claimed 400 (the fileFilter error is a plain Error, which the error
middleware does not map to 400). -/
theorem C3_counterexample :
    fileFilter "evil.notpng" "xpng" = true ∧
    extname "evil.notpng" = ".notpng" ∧
    "notpng" ∉ allowedTypes ∧ ".notpng" ∉ allowedTypes ∧ "xpng" ∉ allowedTypes ∧
    (postUpload envOcrFail reqExe stEmpty).1.status = 500 ∧
    (postUpload envOcrFail reqExe stEmpty).1.status ≠ 400 := by
  decide

/-- C3 (amended): validation accepts exactly when both the lowercased
extension and the declared content-type contain some allow-list token as a
substring (containment, not exact membership); a validation-rejected upload
answers HTTP 500 through the generic error handler (not 400), creates no
record and leaves the storage directory unchanged. -/
theorem C3_validation (env : Env) (req : UploadRequest) (st : SysState) :
    (fileFilter req.originalname req.mimetype = true ↔
      ((∃ t ∈ allowedTypes, occursIn t.toList (lowerStr (extname req.originalname)).toList = true) ∧
       (∃ t ∈ allowedTypes, occursIn t.toList req.mimetype.toList = true))) ∧
    (fileFilter req.originalname req.mimetype = false →
      (postUpload env req st).1.status = 500 ∧
      (postUpload env req st).1.record = none ∧
      (postUpload env req st).2 = st) := by
  constructor
  · simp [fileFilter, allowedTypesTest, List.any_eq_true]
  · intro h
    simp [postUpload, h, errorMiddleware]

/-- C3 witness. -/
theorem C3_validation_witness :
    (postUpload envOcrFail reqExe stEmpty).1.status = 500 ∧
    (postUpload envOcrFail reqExe stEmpty).1.record = none ∧
    (postUpload envOcrFail reqExe stEmpty).2 = stEmpty :=
  (C3_validation envOcrFail reqExe stEmpty).2 (by decide)

/-! Claim C4: malformed ids -/

/-- C4 counterexample: the malformed id abc makes `findById` throw a
`CastError`, which the catch blocks turn into HTTP 500, not the claimed
404. -/
theorem C4_counterexample :
    (getById [] "abc").status = 500 ∧ (getById [] "abc").status ≠ 404 ∧
    (deleteById stEmpty "abc").1 = 500 ∧ (deleteById stEmpty "abc").1 ≠ 404 := by
  decide

/-- C4 (amended): a malformed id (one that does not cast to a store
identifier) makes getById and deleteById answer a handled HTTP 500 error
response — not a crash, but not 404 either — and leaves the state
unchanged. -/
theorem C4_malformed_id (store : List Record) (files : List String) (id : String)
    (h : validObjectId id = false) :
    (getById store id).status = 500 ∧ (getById store id).record = none ∧
    (deleteById ⟨files, store⟩ id).1 = 500 ∧
    (deleteById ⟨files, store⟩ id).2 = ⟨files, store⟩ := by
  simp [getById, deleteById, findById, h]

/-- C4 witness. -/
theorem C4_malformed_id_witness :
    (getById [] "abc").status = 500 ∧ (getById [] "abc").record = none ∧
    (deleteById ⟨[], []⟩ "abc").1 = 500 ∧
    (deleteById ⟨[], []⟩ "abc").2 = ⟨[], []⟩ :=
  C4_malformed_id [] [] "abc" (by decide)

/-! Claim C5: empty extracted text -/

/-- C5 counterexample: when recognition yields whitespace-only text, the
trimmed text is empty, the mongoose `required` validator on
`extractedText` rejects the save, and the upload answers 500 with no
record stored — persistence does not succeed as the claim states. -/
theorem C5_counterexample :
    jsTrim "   " = "" ∧
    (postUpload envWsText reqPng stEmpty).1.status = 500 ∧
    (postUpload envWsText reqPng stEmpty).2.store = [] := by
  decide

/-- C5 (amended): a successful upload stores a record whose `extractedText`
equals the trimmed recognized text, which is then necessarily non-empty;
when the trimmed text is empty the `required` schema validator makes the
save fail, so the upload answers 500 and stores nothing. -/
theorem C5_trimmed_text (env : Env) (req : UploadRequest) (st : SysState) (text : String)
    (hf : fileFilter req.originalname req.mimetype = true)
    (hs : req.size ≤ fileSizeLimit)
    (hp : env.pre = PreprocessOutcome.ok)
    (ho : env.ocr = OcrOutcome.ok text) :
    (jsTrim text ≠ "" →
      (postUpload env req st).1.status = 201 ∧
      ∃ r, (postUpload env req st).2.store = st.store ++ [r] ∧
        r.extractedText = jsTrim text) ∧
    (jsTrim text = "" →
      (postUpload env req st).1.status = 500 ∧
      (postUpload env req st).2.store = st.store) := by
  have hiu := imageUrl_ne_empty env req.originalname
  constructor
  · intro ht
    simp [postUpload, hf, hs, hp, ho, saveRecord, hiu, ht]
  · intro ht
    simp [postUpload, hf, hs, hp, ho, saveRecord, hiu, ht]

/-- C5 witness. -/
theorem C5_trimmed_text_witness :
    (postUpload envOkText reqPng stEmpty).1.status = 201 ∧
    ∃ r, (postUpload envOkText reqPng stEmpty).2.store = stEmpty.store ++ [r] ∧
      r.extractedText = jsTrim " Hello " :=
  (C5_trimmed_text envOkText reqPng stEmpty " Hello "
    (by decide) (by decide) rfl rfl).1 (by decide)

/-! Claim C6: delete then get, idempotent delete -/

/-- C6: deleting an id present in the store succeeds with 200; afterwards
getById on that id answers 404, and a second deleteById on the same id also
answers 404 rather than crashing. (Ids present in the store are
mongoose-generated ObjectIds, hence well-formed.) -/
theorem C6_delete_idempotent (st : SysState) (id : String)
    (hv : validObjectId id = true)
    (hmem : (st.store.find? (fun r => r.id == id)).isSome = true) :
    (deleteById st id).1 = 200 ∧
    getById (deleteById st id).2.store id = ⟨404, none⟩ ∧
    (deleteById (deleteById st id).2 id).1 = 404 := by
  obtain ⟨r, hr⟩ := Option.isSome_iff_exists.mp hmem
  have h1 : deleteById st id =
      (200, ⟨st.files.erase r.imageUrl, st.store.filter (fun q => !(q.id == id))⟩) := by
    simp [deleteById, findById, hv, hr]
  have h2 := find?_filter_ne st.store id
  rw [h1]
  refine ⟨rfl, ?_, ?_⟩
  · simp [getById, findById, hv, h2, -List.find?_filter]
  · simp [deleteById, findById, hv, h2, -List.find?_filter]

/-- C6 witness. -/
theorem C6_delete_idempotent_witness :
    (deleteById stIdA idA).1 = 200 ∧
    getById (deleteById stIdA idA).2.store idA = ⟨404, none⟩ ∧
    (deleteById (deleteById stIdA idA).2 idA).1 = 404 :=
  C6_delete_idempotent stIdA idA (by decide) (by decide)

/-! Claim C7: list ordering -/

/-- C7 counterexample: two records created in the same millisecond are a
reachable store state; the listing keeps both, so its `createdAt` sequence
is not strictly descending. -/
theorem C7_counterexample :
    ¬ List.Pairwise (fun a b => b.createdAt < a.createdAt)
      (listRecords [rTied1, rTied2] none) := by
  decide

/-- C7 (amended): the no-search listing is sorted by `createdAt` in
descending — newest first, but not necessarily strictly descending, since
`createdAt` is not unique — order, and is a permutation of the store. -/
theorem C7_sorted_desc (store : List Record) :
    List.Sorted createdAtDesc (listRecords store none) ∧
    (listRecords store none).Perm store := by
  refine ⟨List.sorted_insertionSort createdAtDesc _, ?_⟩
  unfold listRecords
  have hid : store.filter (queryFilter none) = store :=
    List.filter_eq_self.mpr (fun a _ => rfl)
  rw [hid]
  exact List.perm_insertionSort _ _

/-! Claim C8: size limit -/

/-- C8 counterexample: an oversized upload whose type also fails the filter
answers 500, not the claimed 400, because multer's fileFilter rejects the
file (a plain Error, hence 500) before the size limit is ever enforced. -/
theorem C8_counterexample :
    fileSizeLimit < req15Exe.size ∧
    (postUpload envOcrFail req15Exe stEmpty).1.status = 500 ∧
    (postUpload envOcrFail req15Exe stEmpty).1.status ≠ 400 := by
  decide

/-- C8 (amended): an upload exceeding the 10 MiB limit whose type passes the
filter is rejected with HTTP 400 via the `LIMIT_FILE_SIZE` branch of the
error middleware, no record is created, and no file remains (multer removes
the partial write). -/
theorem C8_oversize_rejected (env : Env) (req : UploadRequest) (st : SysState)
    (hf : fileFilter req.originalname req.mimetype = true)
    (hs : fileSizeLimit < req.size) :
    (postUpload env req st).1.status = 400 ∧
    (postUpload env req st).1.record = none ∧
    (postUpload env req st).2 = st := by
  simp [postUpload, hf, Nat.not_le.mpr hs, errorMiddleware]

/-- C8 witness. -/
theorem C8_oversize_rejected_witness :
    (postUpload envOcrFail req15Png stEmpty).1.status = 400 ∧
    (postUpload envOcrFail req15Png stEmpty).1.record = none ∧
    (postUpload envOcrFail req15Png stEmpty).2 = stEmpty :=
  C8_oversize_rejected envOcrFail req15Png stEmpty (by decide) (by decide)

/-! Claim C9: language default -/

/-- C9: on a successful upload the stored record's language is the supplied
language code when a non-empty one is supplied, and the default code eng
when the field is omitted or empty. -/
theorem C9_language_default (env : Env) (req : UploadRequest) (st : SysState) (text : String)
    (hf : fileFilter req.originalname req.mimetype = true)
    (hs : req.size ≤ fileSizeLimit)
    (hp : env.pre = PreprocessOutcome.ok)
    (ho : env.ocr = OcrOutcome.ok text)
    (ht : jsTrim text ≠ "") :
    (postUpload env req st).1.status = 201 ∧
    ∀ r, (postUpload env req st).1.record = some r →
      ((req.bodyLanguage = none → r.language = "eng") ∧
       (req.bodyLanguage = some "" → r.language = "eng") ∧
       (∀ s, req.bodyLanguage = some s → s ≠ "" → r.language = s)) := by
  have hiu := imageUrl_ne_empty env req.originalname
  refine ⟨by simp [postUpload, hf, hs, hp, ho, saveRecord, hiu, ht], ?_⟩
  intro r hr
  have hrec : r = ⟨env.newId, imageUrlOf env req.originalname, jsTrim text,
      languageOr req.bodyLanguage, env.now⟩ := by
    simp [postUpload, hf, hs, hp, ho, saveRecord, hiu, ht] at hr
    exact hr.symm
  subst hrec
  refine ⟨fun h => by simp [languageOr, h], fun h => by simp [languageOr, h], ?_⟩
  intro s hsome hne
  simp [languageOr, hsome, hne]

/-- C9 witness. -/
theorem C9_language_default_witness :
    (postUpload envOkText reqPngFra stEmpty).1.status = 201 ∧
    ∀ r, (postUpload envOkText reqPngFra stEmpty).1.record = some r →
      ((reqPngFra.bodyLanguage = none → r.language = "eng") ∧
       (reqPngFra.bodyLanguage = some "" → r.language = "eng") ∧
       (∀ s, reqPngFra.bodyLanguage = some s → s ≠ "" → r.language = s)) :=
  C9_language_default envOkText reqPngFra stEmpty " Hello "
    (by decide) (by decide) rfl rfl (by decide)

/-! Claim C10: count invariant -/

/-- C10: in every records-listing response, with or without a search
parameter, the count field equals the length of the records array of the
same response. -/
theorem C10_count_matches (store : List Record) (search : Option String) :
    (recordsResponse store search).count = (recordsResponse store search).records.length := rfl
